import Mathlib

/-!
Verification development for the notebook document model (NotebookModel,
its undoable cell collection and its metadata store) and for the LabIcon
instance registry of this repository.

The notebook model is embedded from the specification: its implementation
is not among the provided source files, only its test suite is
(src/unnamed/part_000), so each definition below that carries a comment
starting with Modelled from the spec follows the words of the spec, with
the behavior pinned down by the test suite taking precedence where the two
disagree (the test suite is source of this repository).  The LabIcon
registry is embedded from packages/ui-components/src/icon/labicon.tsx.
-/

mutual
/-- A JSON value, the payload type for notebook and cell metadata. -/
inductive JValue where
  | null : JValue
  | bool (b : Bool) : JValue
  | num (n : Int) : JValue
  | str (s : String) : JValue
  | arr (xs : JArr) : JValue
  | obj (fields : JObj) : JValue
deriving DecidableEq
/-- A JSON array of values. -/
inductive JArr where
  | nil : JArr
  | cons (hd : JValue) (tl : JArr) : JArr
deriving DecidableEq
/-- A JSON object, an ordered list of key and value fields. -/
inductive JObj where
  | nil : JObj
  | cons (key : String) (val : JValue) (tl : JObj) : JObj
deriving DecidableEq
end

/-- A JSON object of the shape with a single name field, as used by the
default kernelspec and language_info metadata entries. -/
def jNameObj (n : String) : JValue :=
  JValue.obj (JObj.cons "name" (JValue.str n) JObj.nil)

/-- The closed set of notebook cell types (code, markdown, raw). -/
inductive CellType where
  | code : CellType
  | markdown : CellType
  | raw : CellType
deriving DecidableEq

/-- The serialized (on-disk) form of one notebook cell, per the wire
format of the spec: cell_type, source text, metadata, and (meaningful
for code cells only) execution count and outputs. -/
structure CellJson where
  cell_type : CellType
  source : String
  metadata : List (String × JValue)
  execution_count : Option Int
  outputs : List JValue
deriving DecidableEq

/-- A valid on-disk notebook document: major and minor version fields,
document metadata, and a sequence of cells. -/
structure NbDoc where
  nbformat : Int
  nbformat_minor : Int
  metadata : List (String × JValue)
  cells : List CellJson
deriving DecidableEq

/-- Modelled from the spec: an in-memory Cell Model, one structured unit
of content with a stable identity (an opaque id, independent of position
in the collection), a type tag immutable after construction, mutable
source text, mutable metadata, and (for code cells) an execution count
and an output list.  Identity of cells is modelled by the id field: two
cell values with different ids are different cells. -/
structure Cell where
  id : Nat
  type : CellType
  source : String
  metadata : List (String × JValue)
  execution_count : Option Int
  outputs : List JValue
deriving DecidableEq

/-- Look a key up in an association-list metadata store: the bound value,
or none for a missing key (get never throws). -/
def mdGet (m : List (String × JValue)) (k : String) : Option JValue :=
  (m.find? (fun p => p.1 == k)).map (fun p => p.2)

/-- Store a value under a key in an association-list metadata store,
replacing the first existing binding in place if the key is present,
appending otherwise (the JS Map update order). -/
def mdPut : List (String × JValue) → String → JValue → List (String × JValue)
  | [], k, v => [(k, v)]
  | (k', v') :: rest, k, v =>
      if k' = k then (k, v) :: rest else (k', v') :: mdPut rest k v

/-- Modelled from the spec: the library's current major notebook format
version (nbformat.MAJOR_VERSION). -/
def MAJOR_VERSION : Int := 4

/-- Modelled from the spec: the library's current minor notebook format
version (nbformat.MINOR_VERSION). -/
def MINOR_VERSION : Int := 4

/-- Modelled from the spec: the NotebookModel aggregate root.  It owns
the Cell Collection (none once the model is disposed, mirroring that the
collection reference is released on dispose), the undo history of the
collection (a stack of prior cell sequences), the document metadata
store, the format version bookkeeping, the dirty flag, the disposed flag,
and a counter from which fresh cell identities are drawn. -/
structure NotebookModel where
  cells : Option (List Cell)
  undoStack : List (List Cell)
  metadata : List (String × JValue)
  nbformat : Int
  nbformatMinor : Int
  dirty : Bool
  isDisposed : Bool
  nextId : Nat
deriving DecidableEq

/-- Modelled from the spec: the NotebookModel constructor, optionally
seeded with a language preference.  The fresh model is live, clean, has
an empty cell collection and empty undo history, and default metadata
holding a kernelspec and a language_info entry (the test suite checks
both defaults are present and that dirty starts false). -/
def NotebookModel.create (languagePreference : String) : NotebookModel :=
  { cells := some []
    undoStack := []
    metadata := [("kernelspec", jNameObj ""), ("language_info", jNameObj languagePreference)]
    nbformat := MAJOR_VERSION
    nbformatMinor := MINOR_VERSION
    dirty := false
    isDisposed := false
    nextId := 0 }

/-- The change record a metadata store mutation emits: the key, the old
value (none when the key was missing) and the new value. -/
structure MetaChange where
  key : String
  oldValue : Option JValue
  newValue : Option JValue
deriving DecidableEq

/-- Modelled from the spec: metadata set on the notebook model.  If the
new value deep-equals the current value this is a silent no-op: no event
and no dirty propagation.  Otherwise the value is stored, the dirty flag
is set, and exactly one change event carrying the key, the old value and
the new value is emitted (returned here as the event list of the call). -/
def NotebookModel.metadataSet (k : String) (v : JValue) (s : NotebookModel) :
    NotebookModel × List MetaChange :=
  match mdGet s.metadata k with
  | some old =>
      if old = v then (s, [])
      else ({ s with metadata := mdPut s.metadata k v, dirty := true },
            [⟨k, some old, some v⟩])
  | none =>
      ({ s with metadata := mdPut s.metadata k v, dirty := true },
       [⟨k, none, some v⟩])

/-- A Cell Collection mutation: push a cell, remove the cell at an index,
or move a cell from one index to another. -/
inductive CellOp where
  | push (c : Cell) : CellOp
  | remove (i : Nat) : CellOp
  | move (i j : Nat) : CellOp
deriving DecidableEq

/-- Move the element at index i to index j (remove it, then insert it at
the target position); the list is unchanged when i is out of range. -/
def moveList (cs : List Cell) (i j : Nat) : List Cell :=
  match cs.get? i with
  | none => cs
  | some c => (cs.eraseIdx i).insertIdx j c

/-- Modelled from the spec: one atomic, individually undoable Cell
Collection mutation on the model.  A mutation on a disposed model is a
reported UseAfterDispose error; remove and move with out-of-range indices
are reported IndexOutOfRange errors.  A successful mutation records the
prior cell sequence on the undo stack and sets the dirty flag. -/
def NotebookModel.applyOp (op : CellOp) (s : NotebookModel) :
    Except String NotebookModel :=
  match s.cells with
  | none => Except.error "UseAfterDispose"
  | some cs =>
    match op with
    | CellOp.push c =>
        Except.ok { s with cells := some (cs ++ [c]),
                           undoStack := cs :: s.undoStack, dirty := true }
    | CellOp.remove i =>
        if i < cs.length then
          Except.ok { s with cells := some (cs.eraseIdx i),
                             undoStack := cs :: s.undoStack, dirty := true }
        else Except.error "IndexOutOfRange"
    | CellOp.move i j =>
        if i < cs.length ∧ j < cs.length then
          Except.ok { s with cells := some (moveList cs i j),
                             undoStack := cs :: s.undoStack, dirty := true }
        else Except.error "IndexOutOfRange"

/-- Modelled from the spec: undo of the most recent Cell Collection
mutation batch.  Undo restores the cell sequence recorded by the last
batch; with an empty undo history it is a no-op.  It is a total
function: it raises no error from any state. -/
def NotebookModel.undo (s : NotebookModel) : NotebookModel :=
  match s.undoStack with
  | [] => s
  | prev :: rest => { s with cells := some prev, undoStack := rest }

/-- Modelled from the spec: a cell-content mutation, changing the text of
the cell at an index.  Propagates to the model by setting the dirty flag;
fails on a disposed model or an out-of-range index. -/
def NotebookModel.setCellText (i : Nat) (t : String) (s : NotebookModel) :
    Except String NotebookModel :=
  match s.cells with
  | none => Except.error "UseAfterDispose"
  | some cs =>
    if h : i < cs.length then
      Except.ok { s with
        cells := some (cs.set i { cs.get ⟨i, h⟩ with source := t }),
        dirty := true }
    else Except.error "IndexOutOfRange"

/-- Modelled from the spec: the dirty flag is settable directly by the
caller. -/
def NotebookModel.setDirty (b : Bool) (s : NotebookModel) : NotebookModel :=
  { s with dirty := b }

/-- Modelled from the spec: dispose of the model.  Total (never fails,
from any state, disposed included), marks the model disposed and
releases the Cell Collection reference (cells becomes none) together
with its undo history. -/
def NotebookModel.dispose (s : NotebookModel) : NotebookModel :=
  { s with isDisposed := true, cells := none, undoStack := [] }

/-- Modelled from the spec: construct a Cell Model from the serialized
form of one cell, with identity drawn from the given fresh id.  The
execution count and outputs are kept for code cells only. -/
def cellFromJSON (n : Nat) (c : CellJson) : Cell :=
  { id := n
    type := c.cell_type
    source := c.source
    metadata := c.metadata
    execution_count := match c.cell_type with
      | CellType.code => c.execution_count
      | _ => none
    outputs := match c.cell_type with
      | CellType.code => c.outputs
      | _ => [] }

/-- Modelled from the spec: serialize one Cell Model back to the wire
format (type, source text, metadata; execution count and outputs for
code cells only). -/
def cellToJSON (c : Cell) : CellJson :=
  { cell_type := c.type
    source := c.source
    metadata := c.metadata
    execution_count := match c.type with
      | CellType.code => c.execution_count
      | _ => none
    outputs := match c.type with
      | CellType.code => c.outputs
      | _ => [] }

/-- Build the in-memory cells for a deserialized cell sequence, drawing
consecutive fresh identities starting at the given counter value. -/
def buildCells : Nat → List CellJson → List Cell
  | _, [] => []
  | n, c :: cs => cellFromJSON n c :: buildCells (n + 1) cs

/-- The orig_nbformat entry of a document's metadata, when present as a
number: the format version the document originally had. -/
def NbDoc.origNbformat (d : NbDoc) : Option Int :=
  match mdGet d.metadata "orig_nbformat" with
  | some (JValue.num n) => some n
  | _ => none

/-- Modelled from the spec: a document needs the format-upgrade side
effect exactly when its recorded original format version is present and
older (smaller) than the library's current major version. -/
def NbDoc.needsUpgrade (d : NbDoc) : Bool :=
  match d.origNbformat with
  | some n => decide (n < MAJOR_VERSION)
  | none => false

/-- Modelled from the spec: the document metadata after a load replaces
the store wholesale, except that a default language_info and kernelspec
pair is preserved from the prior store (or derived as a default) when
absent in the input. -/
def loadMetadata (old incoming : List (String × JValue)) :
    List (String × JValue) :=
  let m1 :=
    if (mdGet incoming "language_info").isSome then incoming
    else incoming ++ [("language_info", (mdGet old "language_info").getD (jNameObj ""))]
  if (mdGet m1 "kernelspec").isSome then m1
  else m1 ++ [("kernelspec", (mdGet old "kernelspec").getD (jNameObj ""))]

/-- Modelled from the spec: deserialize a valid document into the model.
The Cell Collection content is replaced wholesale by cells built from the
document (old cells are discarded, not merged), as one batch recorded on
the undo stack: the test suite (src/unnamed/part_000, the undoing-a-change
test) pins that a single undo right after the load restores the pre-load
cells with their identity, so the replacement is undoable rather than
history-clearing.  Document metadata is replaced per loadMetadata.  The
model's nbformat is taken from the document, raised to the current major
version when the document's orig_nbformat is older than the current major
version; nbformatMinor is taken from the document, raised to at least
the current minor version (the tests pin nbformatMinor = MINOR_VERSION
after a load).  The dirty flag is set by the load (the tests pin dirty =
true after fromJSON).  The second component counts how many times the
format-upgrade observer channel was invoked during the load.  On a
disposed model the load is a no-op. -/
def NotebookModel.fromJSON (d : NbDoc) (s : NotebookModel) :
    NotebookModel × Nat :=
  match s.cells with
  | none => (s, 0)
  | some cs =>
      ({ s with
          cells := some (buildCells s.nextId d.cells)
          undoStack := cs :: s.undoStack
          metadata := loadMetadata s.metadata d.metadata
          nbformat := if d.needsUpgrade then max d.nbformat MAJOR_VERSION else d.nbformat
          nbformatMinor := max d.nbformat_minor MINOR_VERSION
          dirty := true
          nextId := s.nextId + d.cells.length },
       if d.needsUpgrade then 1 else 0)

/-- Modelled from the spec: serialize the model to a full versioned
document, a pure function of the current state. -/
def NotebookModel.toJSON (s : NotebookModel) : NbDoc :=
  { nbformat := s.nbformat
    nbformat_minor := s.nbformatMinor
    metadata := s.metadata
    cells := (s.cells.getD []).map cellToJSON }

/-- The global LabIcon registry state, embedded from labicon.tsx: the
name-keyed instance map (LabIcon._instances, insertion ordered), the
svgstr each instance currently holds (instances are modelled by numeric
identities, with the svgstr of an identity kept in store), the next fresh
instance identity, and the identity of the module-level badIcon that the
constructor returns when its sanity check fails. -/
structure IconState where
  instances : List (String × Nat)
  store : List (Nat × String)
  nextId : Nat
  badId : Nat
deriving DecidableEq

/-- Look an icon name up in the registry: the identity of the registered
instance, or none. -/
def iconLookup (st : IconState) (n : String) : Option Nat :=
  (st.instances.find? (fun p => p.1 == n)).map (fun p => p.2)

/-- The svgstr an instance identity currently holds. -/
def storeGet (store : List (Nat × String)) (i : Nat) : Option String :=
  (store.find? (fun p => p.1 == i)).map (fun p => p.2)

/-- Replace the svgstr held by an instance identity (first binding
updated in place, appended when absent). -/
def storePut : List (Nat × String) → Nat → String → List (Nat × String)
  | [], i, s => [(i, s)]
  | (j, t) :: rest, i, s =>
      if j = i then (i, s) :: rest else (j, t) :: storePut rest i s

/-- The LabIcon constructor, embedded from labicon.tsx lines 246 to 292.
If name or svgstr is empty the sanity check fails and the constructor
returns the module-level badIcon, registering nothing.  If the name is
already registered, the existing instance is fetched, its svgstr is
replaced by the new one, and that instance is returned (this covers both
the loading and the already-loaded branch of the source, which differ
only in a console warning).  Otherwise a fresh instance is created,
given the svgstr, and registered under the name.  Returns the identity
of the resulting instance together with the new registry state. -/
def labiconConstruct (name svgstr : String) (st : IconState) :
    Nat × IconState :=
  if name = "" ∨ svgstr = "" then
    (st.badId, st)
  else
    match iconLookup st name with
    | some i => (i, { st with store := storePut st.store i svgstr })
    | none =>
        (st.nextId,
         { st with
            instances := st.instances ++ [(name, st.nextId)]
            store := storePut st.store st.nextId svgstr
            nextId := st.nextId + 1 })

/-- A stand-in for the raw contents of style/debug/bad.svg (the file
itself is not part of the staged sources; only non-emptiness matters). -/
def badSvgstr : String := "<svg>bad</svg>"

/-- A stand-in for the raw contents of style/debug/blank.svg. -/
def blankSvgstr : String := "<svg>blank</svg>"

/-- The registry state after module load of labicon.tsx: badIcon and
blankIcon are constructed (in that order, so badIcon has identity 0). -/
def iconInit : IconState :=
  (labiconConstruct "ui-components:blank" blankSvgstr
    (labiconConstruct "ui-components:bad" badSvgstr
      { instances := [], store := [], nextId := 0, badId := 0 }).2).2

/-- A concrete cell used by witnesses and counterexamples. -/
def cellA : Cell :=
  { id := 0, type := CellType.code, source := "foo", metadata := []
    execution_count := none, outputs := [] }

/-- A freshly constructed notebook model. -/
def model0 : NotebookModel := NotebookModel.create ""

/-- The model0 state after pushing cellA (one collection mutation, hence
one undo batch on the stack and a bumped identity counter). -/
def model1 : NotebookModel :=
  { cells := some [cellA]
    undoStack := [[]]
    metadata := model0.metadata
    nbformat := MAJOR_VERSION
    nbformatMinor := MINOR_VERSION
    dirty := true
    isDisposed := false
    nextId := 1 }

/-- A concrete serialized cell. -/
def demoCellJson (t : CellType) (text : String) : CellJson :=
  { cell_type := t, source := text, metadata := []
    execution_count := none, outputs := [] }

/-- A concrete valid document with six cells, mirroring the default test
content of the test suite. -/
def demoDoc6 : NbDoc :=
  { nbformat := 4
    nbformat_minor := 2
    metadata := []
    cells :=
      [demoCellJson CellType.code "c0", demoCellJson CellType.markdown "c1",
       demoCellJson CellType.raw "c2", demoCellJson CellType.code "c3",
       demoCellJson CellType.markdown "c4", demoCellJson CellType.code "c5"] }

/-- A concrete document recording an original format version older than
the current major version. -/
def demoDocOld : NbDoc :=
  { nbformat := 4
    nbformat_minor := 2
    metadata := [("orig_nbformat", JValue.num 1)]
    cells := [demoCellJson CellType.code "c0"] }

/-- A concrete document claiming a format newer than the current major
version while recording an older original version. -/
def demoDocNewer : NbDoc :=
  { nbformat := 5
    nbformat_minor := 0
    metadata := [("orig_nbformat", JValue.num 1)]
    cells := [] }

example : ((model1.fromJSON demoDoc6).1.cells.getD []).length = 6 := by decide
example : (model1.fromJSON demoDoc6).1.undo.cells = some [cellA] := by decide
example : ((model0.fromJSON demoDocOld).1).nbformat = MAJOR_VERSION := by decide
example : (model0.fromJSON demoDocOld).2 = 1 := by decide
example : ((model0.fromJSON demoDocNewer).1).nbformat = 5 := by decide
example : (labiconConstruct "a" "sv" iconInit).1 = 2 := by decide
example : model0.dirty = false ∧ (model0.fromJSON demoDoc6).1.dirty = true := by decide

theorem buildCells_length (n : Nat) (cs : List CellJson) :
    (buildCells n cs).length = cs.length := by
  induction cs generalizing n with
  | nil => rfl
  | cons c cs ih => simp [buildCells, ih]

theorem buildCells_roundtrip (n : Nat) (cs : List CellJson) :
    ((buildCells n cs).map cellToJSON).map (fun c => (c.cell_type, c.source))
      = cs.map (fun c => (c.cell_type, c.source)) := by
  induction cs generalizing n with
  | nil => rfl
  | cons c cs ih => simp [buildCells, cellToJSON, cellFromJSON, ih]

theorem buildCells_id_ge (n : Nat) (cs : List CellJson) :
    ∀ c ∈ buildCells n cs, n ≤ c.id := by
  induction cs generalizing n with
  | nil => intro c hc; simp [buildCells] at hc
  | cons d ds ih =>
      intro c hc
      simp only [buildCells, List.mem_cons] at hc
      rcases hc with rfl | hc
      · simp [cellFromJSON]
      · exact Nat.le_of_succ_le (ih (n + 1) c hc)

/-- C1: for every valid notebook document D and live model, fromJSON
followed by toJSON yields a document with exactly D's cell count, cell
order, per-cell source text and per-cell type, and nbformat and
nbformat_minor fields at least D's (upgraded by the migration rule, never
downgraded). -/
theorem C1_roundtrip (s : NotebookModel) (d : NbDoc) (cs : List Cell)
    (hlive : s.cells = some cs) :
    (((s.fromJSON d).1).toJSON).cells.length = d.cells.length
    ∧ (((s.fromJSON d).1).toJSON).cells.map (fun c => (c.cell_type, c.source))
        = d.cells.map (fun c => (c.cell_type, c.source))
    ∧ d.nbformat ≤ (((s.fromJSON d).1).toJSON).nbformat
    ∧ d.nbformat_minor ≤ (((s.fromJSON d).1).toJSON).nbformat_minor := by
  simp only [NotebookModel.fromJSON, hlive, NotebookModel.toJSON, Option.getD_some]
  refine ⟨?_, ?_, ?_, ?_⟩
  · simp [buildCells_length]
  · exact buildCells_roundtrip s.nextId d.cells
  · by_cases h : d.needsUpgrade <;> simp [h, le_max_left]
  · simp [le_max_left]

/-- C1 witness: the round-trip property at a concrete model and the
concrete six-cell document. -/
theorem C1_roundtrip_witness :
    (((model1.fromJSON demoDoc6).1).toJSON).cells.length = demoDoc6.cells.length
    ∧ (((model1.fromJSON demoDoc6).1).toJSON).cells.map (fun c => (c.cell_type, c.source))
        = demoDoc6.cells.map (fun c => (c.cell_type, c.source))
    ∧ demoDoc6.nbformat ≤ (((model1.fromJSON demoDoc6).1).toJSON).nbformat
    ∧ demoDoc6.nbformat_minor ≤ (((model1.fromJSON demoDoc6).1).toJSON).nbformat_minor :=
  C1_roundtrip model1 demoDoc6 [cellA] rfl

/-- C2: fromJSON replaces the Cell Collection wholesale: for a live model
holding a cell c (ids below the fresh-id counter, as every reachable model
has) and a valid six-cell document, after fromJSON the collection has
length six and c is no longer present. -/
theorem C2_full_replace (s : NotebookModel) (d : NbDoc) (c : Cell) (cs : List Cell)
    (hlive : s.cells = some cs)
    (hwf : ∀ c' ∈ cs, c'.id < s.nextId)
    (hmem : c ∈ cs)
    (hlen : d.cells.length = 6) :
    ((s.fromJSON d).1.cells.getD []).length = 6
    ∧ c ∉ ((s.fromJSON d).1.cells.getD []) := by
  simp only [NotebookModel.fromJSON, hlive, Option.getD_some]
  constructor
  · simp [buildCells_length, hlen]
  · intro hc
    have h1 : s.nextId ≤ c.id := buildCells_id_ge s.nextId d.cells c hc
    exact absurd h1 (not_le.mpr (hwf c hmem))

/-- C2 witness: the wholesale replacement at a concrete one-cell model
and the concrete six-cell document. -/
theorem C2_full_replace_witness :
    ((model1.fromJSON demoDoc6).1.cells.getD []).length = 6
    ∧ cellA ∉ ((model1.fromJSON demoDoc6).1.cells.getD []) :=
  C2_full_replace model1 demoDoc6 cellA [cellA] rfl (by decide) (by decide) (by decide)

/-- C3: any Cell Collection mutation followed by one undo returns the
collection to its immediately prior observable state (cell count, order
and identity, as the restored cell sequence is equal to the prior one),
and undo with an empty undo history is a no-op; undo is a total function,
so it raises no error in either case. -/
theorem C3_undo_reverts :
    (∀ (s s' : NotebookModel) (op : CellOp),
        s.applyOp op = Except.ok s' → s'.undo.cells = s.cells)
    ∧ (∀ s : NotebookModel, s.undoStack = [] → s.undo.cells = s.cells) := by
  constructor
  · intro s s' op h
    unfold NotebookModel.applyOp at h
    cases hc : s.cells with
    | none => rw [hc] at h; exact absurd h (by simp)
    | some cs =>
        rw [hc] at h
        cases op with
        | push c =>
            simp only [Except.ok.injEq] at h
            subst h
            simp [NotebookModel.undo, hc]
        | remove i =>
            by_cases hi : i < cs.length
            · simp only [hi, if_true, Except.ok.injEq] at h
              subst h
              simp [NotebookModel.undo, hc]
            · simp [hi] at h
        | move i j =>
            by_cases hij : i < cs.length ∧ j < cs.length
            · simp only [hij, and_self, if_true, Except.ok.injEq] at h
              subst h
              simp [NotebookModel.undo, hc]
            · simp [hij] at h
  · intro s h
    simp [NotebookModel.undo, h]

/-- C4 counterexample: a concrete model with a non-empty undo history
holding cellA; after fromJSON of the six-cell document, a single undo
restores cellA, so the pre-load cells ARE restored, contradicting the
claim that the load clears the undo history. -/
theorem C4_counterexample :
    model1.undoStack ≠ []
    ∧ cellA ∈ model1.cells.getD []
    ∧ cellA ∈ ((model1.fromJSON demoDoc6).1).undo.cells.getD [] := by decide

/-- C4 amended: the fromJSON wholesale replace is itself one undoable
batch: for every live model, a single undo immediately after fromJSON
restores exactly the pre-load cell sequence (count, order, identity). -/
theorem C4_amended (s : NotebookModel) (d : NbDoc) (cs : List Cell)
    (hlive : s.cells = some cs) :
    ((s.fromJSON d).1).undo.cells = some cs := by
  simp [NotebookModel.fromJSON, hlive, NotebookModel.undo]

/-- C4 witness: undo right after a concrete load restores the concrete
pre-load cell. -/
theorem C4_amended_witness :
    ((model1.fromJSON demoDoc6).1).undo.cells = some [cellA] :=
  C4_amended model1 demoDoc6 [cellA] rfl

/-- C5 counterexample: at a concrete clean model and a concrete valid
document, the dirty flag right after fromJSON is not false: the load
marks the model dirty, as the test suite pins. -/
theorem C5_counterexample :
    ¬ (((model0.fromJSON demoDoc6).1).dirty = false) := by decide

/-- C5 amended: every successful fromJSON load on a live model leaves the
dirty flag true (per the test suite and the literal contract the spec
pins in its sections 8 and 9), not false. -/
theorem C5_amended (s : NotebookModel) (d : NbDoc) (cs : List Cell)
    (hlive : s.cells = some cs) :
    ((s.fromJSON d).1).dirty = true := by
  simp [NotebookModel.fromJSON, hlive]

/-- C5 witness: the amended dirty contract at a concrete model and
document. -/
theorem C5_amended_witness : ((model0.fromJSON demoDoc6).1).dirty = true :=
  C5_amended model0 demoDoc6 [] rfl

/-- C6: every Cell Collection mutation (push, remove, move), every
cell-content mutation (changing a cell's text) and every document
metadata mutation sets the dirty flag; the caller can clear the flag
directly, and it stays false until the next such mutation (a metadata
set of an unchanged value, the one non-mutating call, leaves it false). -/
theorem C6_dirty_tracking (s : NotebookModel) :
    (∀ (op : CellOp) (s' : NotebookModel),
        s.applyOp op = Except.ok s' → s'.dirty = true)
    ∧ (∀ (i : Nat) (t : String) (s' : NotebookModel),
        s.setCellText i t = Except.ok s' → s'.dirty = true)
    ∧ (∀ (k : String) (v : JValue),
        mdGet s.metadata k ≠ some v → ((s.metadataSet k v).1).dirty = true)
    ∧ ((s.setDirty false).dirty = false)
    ∧ (∀ (k : String) (v : JValue),
        mdGet s.metadata k = some v →
          (((s.setDirty false).metadataSet k v).1).dirty = false) := by
  refine ⟨?_, ?_, ?_, rfl, ?_⟩
  · intro op s' h
    unfold NotebookModel.applyOp at h
    cases hc : s.cells with
    | none => rw [hc] at h; exact absurd h (by simp)
    | some cs =>
        rw [hc] at h
        cases op with
        | push c =>
            simp only [Except.ok.injEq] at h
            subst h; rfl
        | remove i =>
            by_cases hi : i < cs.length
            · simp only [hi, if_true, Except.ok.injEq] at h
              subst h; rfl
            · simp [hi] at h
        | move i j =>
            by_cases hij : i < cs.length ∧ j < cs.length
            · simp only [hij, and_self, if_true, Except.ok.injEq] at h
              subst h; rfl
            · simp [hij] at h
  · intro i t s' h
    unfold NotebookModel.setCellText at h
    cases hc : s.cells with
    | none => rw [hc] at h; exact absurd h (by simp)
    | some cs =>
        rw [hc] at h
        by_cases hi : i < cs.length
        · simp only [hi, dif_pos, Except.ok.injEq] at h
          subst h; rfl
        · simp [hi] at h
  · intro k v hne
    unfold NotebookModel.metadataSet
    cases hm : mdGet s.metadata k with
    | none => simp
    | some old =>
        have hov : ¬ old = v := fun he => hne (by rw [hm, he])
        simp [hov]
  · intro k v hm
    have hm' : mdGet (s.setDirty false).metadata k = some v := hm
    unfold NotebookModel.metadataSet
    rw [hm']
    simp [NotebookModel.setDirty]

/-- C7: setting a metadata key to a value deep-equal to its current value
fires no change event and does not touch the model (no dirty
propagation); setting it to a different value fires exactly one change
event carrying that key, the correct old value (none when the key was
missing) and the correct new value, and propagates to the dirty flag. -/
theorem C7_metadata_set (s : NotebookModel) (k : String) (v : JValue) :
    ((s.metadataSet k v).2
        = if mdGet s.metadata k = some v then []
          else [⟨k, mdGet s.metadata k, some v⟩])
    ∧ (mdGet s.metadata k = some v → (s.metadataSet k v).1 = s)
    ∧ ((s.metadataSet k v).1.dirty
        = if mdGet s.metadata k = some v then s.dirty else true) := by
  unfold NotebookModel.metadataSet
  cases hm : mdGet s.metadata k with
  | none => simp
  | some old =>
      by_cases h : old = v
      · subst h; simp
      · have hov : ¬ (some old = some v) := by simpa using h
        simp [h, hov]

/-- C8 counterexample: a document recording orig_nbformat 1 (older than
the current major version) while itself carrying nbformat 5 (newer than
the current major version): after fromJSON the model keeps nbformat 5,
which is not the current major version, because version fields are never
downgraded. -/
theorem C8_counterexample :
    demoDocNewer.origNbformat = some 1
    ∧ (1 : Int) < MAJOR_VERSION
    ∧ ((model0.fromJSON demoDocNewer).1).nbformat ≠ MAJOR_VERSION := by decide

/-- C8 amended: for every live model and document whose orig_nbformat is
older than the current major version AND whose own nbformat does not
exceed the current major version, after fromJSON the model's nbformat
equals the current major version, and the format-upgrade observer
channel is invoked exactly once during the load. -/
theorem C8_amended (s : NotebookModel) (d : NbDoc) (cs : List Cell) (n : Int)
    (hlive : s.cells = some cs)
    (horig : d.origNbformat = some n)
    (hold : n < MAJOR_VERSION)
    (hle : d.nbformat ≤ MAJOR_VERSION) :
    ((s.fromJSON d).1).nbformat = MAJOR_VERSION ∧ (s.fromJSON d).2 = 1 := by
  have hup : d.needsUpgrade = true := by
    simp [NbDoc.needsUpgrade, horig, hold]
  simp [NotebookModel.fromJSON, hlive, hup, max_eq_right hle]

/-- C8 witness: the amended upgrade rule at a concrete model and a
concrete document with orig_nbformat 1 and nbformat 4. -/
theorem C8_amended_witness :
    ((model0.fromJSON demoDocOld).1).nbformat = MAJOR_VERSION
    ∧ (model0.fromJSON demoDocOld).2 = 1 :=
  C8_amended model0 demoDocOld [] 1 rfl (by decide) (by decide) (by decide)

/-- C9: dispose is idempotent and never fails from any state: it is a
total function, so calling it twice in a row raises no error on either
call; isDisposed is true after each of the two calls; after disposal the
Cell Collection reference is released (cells is none, after either
call); and the second call changes nothing at all. -/
theorem C9_dispose_idempotent (s : NotebookModel) :
    (s.dispose).isDisposed = true
    ∧ (s.dispose.dispose).isDisposed = true
    ∧ (s.dispose).cells = none
    ∧ (s.dispose.dispose).cells = none
    ∧ s.dispose.dispose = s.dispose :=
  ⟨rfl, rfl, rfl, rfl, rfl⟩

theorem storeGet_storePut (store : List (Nat × String)) (i : Nat) (s : String) :
    storeGet (storePut store i s) i = some s := by
  induction store with
  | nil => simp [storePut, storeGet]
  | cons p rest ih =>
      obtain ⟨j, t⟩ := p
      by_cases h : j = i
      · simp [storePut, storeGet, h]
      · simpa [storePut, storeGet, h] using ih

/-- The registry state after constructing one ordinary icon named a on
top of the module-load state (it receives identity 2, after the bad and
blank debug icons). -/
def demoIconState : IconState := (labiconConstruct "a" "sv" iconInit).2

/-- C10 counterexample: with the name a registered (identity 2),
constructing a LabIcon named a with an EMPTY svgstr fails the
constructor's sanity check: it returns the module badIcon (identity 0),
not the previously registered instance, and the registered instance's
svgstr is not replaced. -/
theorem C10_counterexample :
    iconLookup demoIconState "a" = some 2
    ∧ (labiconConstruct "a" "" demoIconState).1 ≠ 2
    ∧ storeGet ((labiconConstruct "a" "" demoIconState).2).store 2 ≠ some "" := by decide

/-- C10 amended: for constructions whose name and svgstr are both
non-empty, constructing a LabIcon whose name is already registered
creates and registers nothing (the instance map and the fresh-identity
counter are unchanged): the constructor returns the previously
registered instance with its svgstr replaced by the new one, so a
further construction with the same name again yields the same instance.
(With an empty name or svgstr the constructor instead returns the shared
badIcon and registers nothing, so the registry still holds at most one
instance per name.) -/
theorem C10_registry_unique (st : IconState) (n s : String) (i : Nat)
    (hn : n ≠ "") (hs : s ≠ "") (hreg : iconLookup st n = some i) :
    (labiconConstruct n s st).1 = i
    ∧ (labiconConstruct n s st).2.instances = st.instances
    ∧ (labiconConstruct n s st).2.nextId = st.nextId
    ∧ storeGet ((labiconConstruct n s st).2).store i = some s
    ∧ (∀ s2 : String, s2 ≠ "" →
        (labiconConstruct n s2 ((labiconConstruct n s st).2)).1 = i) := by
  have hlook : iconLookup { st with store := storePut st.store i s } n
      = iconLookup st n := rfl
  refine ⟨?_, ?_, ?_, ?_, ?_⟩
  · simp [labiconConstruct, hn, hs, hreg]
  · simp [labiconConstruct, hn, hs, hreg]
  · simp [labiconConstruct, hn, hs, hreg]
  · simp [labiconConstruct, hn, hs, hreg, storeGet_storePut]
  · intro s2 hs2
    simp [labiconConstruct, hn, hs, hs2, hreg, hlook]

/-- C10 witness: the amended registry contract at the concrete registry
state in which the name a is registered with identity 2. -/
theorem C10_registry_unique_witness :
    (labiconConstruct "a" "x" demoIconState).1 = 2
    ∧ (labiconConstruct "a" "x" demoIconState).2.instances = demoIconState.instances
    ∧ (labiconConstruct "a" "x" demoIconState).2.nextId = demoIconState.nextId
    ∧ storeGet ((labiconConstruct "a" "x" demoIconState).2).store 2 = some "x"
    ∧ (∀ s2 : String, s2 ≠ "" →
        (labiconConstruct "a" s2 ((labiconConstruct "a" "x" demoIconState).2)).1 = 2) :=
  C10_registry_unique demoIconState "a" "x" 2 (by decide) (by decide) (by decide)
